import Mathlib

/-!
Shallow embedding of the TSI rating engine (lib/tsi/elo.ts, news.ts,
mapping.ts, engine.ts).  JavaScript numbers are modelled as real numbers,
`Date` values as their `getTime()` millisecond timestamps (real numbers),
and the module-level `config` object as an explicit `TSIConfig` argument
threaded through every function.  Goal counts are modelled as integers.
-/

namespace TSI

noncomputable section

/-- Competition types for weighting match importance (types.ts). -/
inductive CompetitionType
  | league | ucl | uel | uecl | domestic_cup | supercup
  deriving DecidableEq

/-- Player availability status (types.ts). -/
inductive InjuryStatus
  | out | injured | suspended | doubtful | questionable | probable | unknown
  deriving DecidableEq

/-- Player position category for injury weighting (types.ts). -/
inductive PositionCategory
  | GK | CB | DM | ST | other
  deriving DecidableEq

/-- Duration category for injury weighting (types.ts). -/
inductive DurationCategory
  | lt7 | d7_21 | d22_60 | gt60 | missing
  deriving DecidableEq

/-- Market value tier for player impact calculation (types.ts). -/
inductive ValueTier
  | S | A | B | C | D | missing
  deriving DecidableEq

/-- Manager quality tier (types.ts). -/
inductive ManagerTier
  | elite | good | neutral | risky | bad
  deriving DecidableEq

/-- Transfer type (types.ts). -/
inductive TransferType
  | permanent | loan
  deriving DecidableEq

/-- Transfer direction; the source's string literals 'in' and 'out' become
`inDir` and `outDir` (`in` is a Lean keyword). -/
inductive TransferDirection
  | inDir | outDir
  deriving DecidableEq

/-- A `Date` is its `getTime()` value in milliseconds. -/
abbrev Date := ℝ

/-- Margin-bonus block of the T0 configuration (config.ts). -/
structure MarginConfig where
  enabled : Bool
  alpha : ℝ
  cap_goals : ℝ

/-- T0 (match engine) configuration (config.ts). -/
structure T0Config where
  K_base : ℝ
  H_home_adv : ℝ
  w_comp : CompetitionType → ℝ
  margin : MarginConfig

/-- Injury block of the T1 configuration (config.ts). -/
structure InjuriesConfig where
  beta : ℝ
  status_u : InjuryStatus → ℝ
  position_r : PositionCategory → ℝ
  duration_d : DurationCategory → ℝ

/-- Transfer block of the T1 configuration (config.ts). -/
structure TransfersConfig where
  gamma : ℝ
  tau_days : TransferType → ℝ

/-- Manager block of the T1 configuration (config.ts). -/
structure ManagerConfig where
  lambda_days : ℝ
  tier_delta : ManagerTier → ℝ

/-- Fatigue block of the T1 configuration (config.ts). -/
structure FatigueConfig where
  phi : ℝ
  psi : ℝ

/-- T1 (news engine) configuration (config.ts). -/
structure T1Config where
  injuries : InjuriesConfig
  transfers : TransfersConfig
  manager : ManagerConfig
  fatigue : FatigueConfig

/-- Display-mapping configuration (config.ts). -/
structure MappingConfig where
  mu : ℝ
  s : ℝ
  display_min : ℝ
  display_max : ℝ

/-- Full TSI configuration (config.ts `TSIConfig`). -/
structure TSIConfig where
  T0 : T0Config
  T1 : T1Config
  Mapping : MappingConfig

/-- Input for the T0 match engine (types.ts `MatchInput`). -/
structure MatchInput where
  homeRating : ℝ
  awayRating : ℝ
  homeGoals : ℤ
  awayGoals : ℤ
  competitionType : CompetitionType
  isNeutralVenue : Bool := false

/-- Output of the T0 match engine (types.ts `MatchResult`). -/
structure MatchResult where
  homeNewRating : ℝ
  awayNewRating : ℝ
  homeDelta : ℝ
  awayDelta : ℝ
  homeExpected : ℝ
  awayExpected : ℝ

/-- A player who is unavailable (types.ts `PlayerInjury`). -/
structure PlayerInjury where
  playerId : String
  playerImpact : Option ℝ := none
  minutesPlayed : Option ℝ := none
  valueTier : Option ValueTier := none
  status : InjuryStatus
  position : PositionCategory
  durationCategory : DurationCategory

/-- A transfer, incoming or outgoing (types.ts `Transfer`). -/
structure Transfer where
  playerId : String
  playerImpact : ℝ
  direction : TransferDirection
  type : TransferType
  effectiveDate : Date

/-- A manager change event (types.ts `ManagerChange`). -/
structure ManagerChange where
  tier : ManagerTier
  changeDate : Date

/-- Full team state input for the TSI engine (types.ts `TeamState`). -/
structure TeamState where
  baseElo : ℝ
  injuries : List PlayerInjury
  transfers : List Transfer
  managerChange : Option ManagerChange
  restDays : ℝ
  matchesIn14Days : ℝ
  currentDate : Date

/-- Component breakdown of a TSI calculation (types.ts `TSIComponents`). -/
structure TSIComponents where
  baseElo : ℝ
  injuryAdj : ℝ
  transferAdj : ℝ
  managerAdj : ℝ
  fatigueAdj : ℝ
  totalRaw : ℝ
  displayScore : ℝ

/-- Full TSI output (types.ts `TSIOutput`). -/
structure TSIOutput where
  tsiRaw : ℝ
  tsiDisplay : ℝ
  components : TSIComponents

/-- Get competition weight from config (elo.ts `getCompetitionWeight`). -/
def getCompetitionWeight (cfg : TSIConfig) (comp : CompetitionType) : ℝ :=
  cfg.T0.w_comp comp

/-- Expected win probability for the home team (elo.ts `expectedScore`). -/
def expectedScore (homeRating awayRating homeAdvantage : ℝ) : ℝ :=
  1 / (1 + (10 : ℝ) ^ (-(homeRating - awayRating + homeAdvantage) / 400))

/-- Actual score outcome: Win=1, Draw=0.5, Loss=0 (elo.ts `actualScore`). -/
def actualScore (homeGoals awayGoals : ℤ) : ℝ :=
  if homeGoals > awayGoals then 1.0
  else if homeGoals < awayGoals then 0.0
  else 0.5

/-- Margin bonus from goal difference (elo.ts `marginBonus`). -/
def marginBonus (cfg : TSIConfig) (homeGoals awayGoals : ℤ) : ℝ :=
  if !cfg.T0.margin.enabled then 0
  else
    cfg.T0.margin.alpha *
      max (-cfg.T0.margin.cap_goals)
        (min cfg.T0.margin.cap_goals ((homeGoals : ℝ) - (awayGoals : ℝ)))

/-- Process a match and return updated Elo ratings (elo.ts `processMatch`). -/
def processMatch (cfg : TSIConfig) (input : MatchInput) : MatchResult :=
  let H := if input.isNeutralVenue then 0 else cfg.T0.H_home_adv
  let homeExpected := expectedScore input.homeRating input.awayRating H
  let awayExpected := 1 - homeExpected
  let K := cfg.T0.K_base * getCompetitionWeight cfg input.competitionType
  let S := actualScore input.homeGoals input.awayGoals
  let mb := marginBonus cfg input.homeGoals input.awayGoals
  let delta := K * (S - homeExpected) + mb
  { homeNewRating := input.homeRating + delta
    awayNewRating := input.awayRating - delta
    homeDelta := delta
    awayDelta := -delta
    homeExpected := homeExpected
    awayExpected := awayExpected }

/-- Standard sigmoid function (mapping.ts `sigmoid`). -/
def sigmoid (x : ℝ) : ℝ := 1 / (1 + Real.exp (-x))

/-- Convert raw Elo to display score (mapping.ts `toDisplay`). -/
def toDisplay (cfg : TSIConfig) (rawElo : ℝ) : ℝ :=
  cfg.Mapping.display_min +
    (cfg.Mapping.display_max - cfg.Mapping.display_min) *
      sigmoid ((rawElo - cfg.Mapping.mu) / cfg.Mapping.s)

/-- Inverse mapping: display score back to raw Elo (mapping.ts `toRaw`). -/
def toRaw (cfg : TSIConfig) (displayScore : ℝ) : ℝ :=
  let sigmoidVal :=
    (displayScore - cfg.Mapping.display_min) /
      (cfg.Mapping.display_max - cfg.Mapping.display_min)
  cfg.Mapping.mu + cfg.Mapping.s * Real.log (sigmoidVal / (1 - sigmoidVal))

/-- Value tier scores for player impact calculation (news.ts `VALUE_TIER_SCORES`). -/
def VALUE_TIER_SCORES : ValueTier → ℝ
  | .S => 1.0
  | .A => 0.75
  | .B => 0.55
  | .C => 0.35
  | .D => 0.20
  | .missing => 0.35

/-- Player impact from minutes and value tier (news.ts `calculatePlayerImpact`). -/
def calculatePlayerImpact (injury : PlayerInjury) : ℝ :=
  match injury.playerImpact with
  | some v => v
  | none =>
    let minutes := injury.minutesPlayed.getD 0
    let minutesShare := min (minutes / 900) 1
    let valueTier := injury.valueTier.getD .missing
    let valueTierScore := VALUE_TIER_SCORES valueTier
    0.6 * minutesShare + 0.4 * valueTierScore

/-- Injury adjustment (news.ts `calculateInjuryAdjustment`). -/
def calculateInjuryAdjustment (cfg : TSIConfig) (injuries : List PlayerInjury) : ℝ :=
  if injuries.length = 0 then 0
  else
    let c := cfg.T1.injuries
    let sum := injuries.foldl
      (fun acc injury =>
        acc + calculatePlayerImpact injury * c.status_u injury.status *
          c.position_r injury.position * c.duration_d injury.durationCategory) 0;
    -c.beta * sum

/-- Transfer ramp function (news.ts `transferRamp`). -/
def transferRamp (currentDate effectiveDate : Date) (tau : ℝ) : ℝ :=
  let daysDiff := (currentDate - effectiveDate) / (1000 * 60 * 60 * 24)
  max 0 (min 1 (daysDiff / tau))

/-- Transfer adjustment (news.ts `calculateTransferAdjustment`). -/
def calculateTransferAdjustment (cfg : TSIConfig) (transfers : List Transfer)
    (currentDate : Date) : ℝ :=
  if transfers.length = 0 then 0
  else
    let c := cfg.T1.transfers
    transfers.foldl
      (fun adjustment transfer =>
        let tau := c.tau_days transfer.type
        let ramp := transferRamp currentDate transfer.effectiveDate tau
        let contribution := c.gamma * transfer.playerImpact * ramp
        if transfer.direction = .inDir then adjustment + contribution
        else adjustment - contribution) 0

/-- Manager change adjustment (news.ts `calculateManagerAdjustment`). -/
def calculateManagerAdjustment (cfg : TSIConfig)
    (managerChange : Option ManagerChange) (currentDate : Date) : ℝ :=
  match managerChange with
  | none => 0
  | some mc =>
    let c := cfg.T1.manager
    let daysSinceChange := (currentDate - mc.changeDate) / (1000 * 60 * 60 * 24)
    let delta := c.tier_delta mc.tier
    delta * Real.exp (-daysSinceChange / c.lambda_days)

/-- Fatigue adjustment (news.ts `calculateFatigueAdjustment`). -/
def calculateFatigueAdjustment (cfg : TSIConfig)
    (restDays matchesIn14Days : ℝ) : ℝ :=
  -cfg.T1.fatigue.phi * max 0 (4 - restDays) -
    cfg.T1.fatigue.psi * max 0 (matchesIn14Days - 4)

/-- Full TSI computation (engine.ts `computeTSI`). -/
def computeTSI (cfg : TSIConfig) (input : TeamState) : TSIOutput :=
  let injuryAdj := calculateInjuryAdjustment cfg input.injuries
  let transferAdj := calculateTransferAdjustment cfg input.transfers input.currentDate
  let managerAdj := calculateManagerAdjustment cfg input.managerChange input.currentDate
  let fatigueAdj := calculateFatigueAdjustment cfg input.restDays input.matchesIn14Days
  let totalRaw := input.baseElo + injuryAdj + transferAdj + managerAdj + fatigueAdj
  let displayScore := toDisplay cfg totalRaw
  { tsiRaw := totalRaw
    tsiDisplay := displayScore
    components :=
      { baseElo := input.baseElo
        injuryAdj := injuryAdj
        transferAdj := transferAdj
        managerAdj := managerAdj
        fatigueAdj := fatigueAdj
        totalRaw := totalRaw
        displayScore := displayScore } }

/-- A concrete parameter set in the shape of the reference configuration
(`tsi_params.yaml` is not part of the engine sources; the values below follow
the literal scenarios of the documentation and serve as a test fixture). -/
def exampleConfig : TSIConfig where
  T0 :=
    { K_base := 20
      H_home_adv := 50
      w_comp := fun c =>
        match c with
        | .league => 1.0
        | .ucl => 1.2
        | .uel => 1.1
        | .uecl => 1.05
        | .domestic_cup => 0.9
        | .supercup => 0.8
      margin := { enabled := true, alpha := 2, cap_goals := 2 } }
  T1 :=
    { injuries :=
        { beta := 18
          status_u := fun s =>
            match s with
            | .out => 1.0
            | .injured => 1.0
            | .suspended => 1.0
            | .doubtful => 0.7
            | .questionable => 0.5
            | .probable => 0.25
            | .unknown => 0.5
          position_r := fun p =>
            match p with
            | .GK => 1.1
            | .CB => 1.0
            | .DM => 1.0
            | .ST => 1.1
            | .other => 0.9
          duration_d := fun d =>
            match d with
            | .lt7 => 0.5
            | .d7_21 => 1.0
            | .d22_60 => 1.25
            | .gt60 => 1.5
            | .missing => 1.0 }
      transfers :=
        { gamma := 10
          tau_days := fun t =>
            match t with
            | .permanent => 30
            | .loan => 15 }
      manager :=
        { lambda_days := 45
          tier_delta := fun t =>
            match t with
            | .elite => 20
            | .good => 10
            | .neutral => 0
            | .risky => -5
            | .bad => -15 }
      fatigue := { phi := 2, psi := 3 } }
  Mapping := { mu := 1850, s := 120, display_min := 10, display_max := 1000 }

end

/-! Helper lemmas shared by the claim theorems. -/

/-- The home delta of a processed match, unfolded. -/
theorem processMatch_homeDelta (cfg : TSIConfig) (input : MatchInput) :
    (processMatch cfg input).homeDelta =
      cfg.T0.K_base * getCompetitionWeight cfg input.competitionType *
          (actualScore input.homeGoals input.awayGoals -
            expectedScore input.homeRating input.awayRating
              (if input.isNeutralVenue then 0 else cfg.T0.H_home_adv)) +
        marginBonus cfg input.homeGoals input.awayGoals := rfl

/-- The away delta is the negation of the home delta, definitionally. -/
theorem processMatch_awayDelta (cfg : TSIConfig) (input : MatchInput) :
    (processMatch cfg input).awayDelta = -(processMatch cfg input).homeDelta := rfl

/-- The away expectancy is one minus the home expectancy, definitionally. -/
theorem processMatch_awayExpected (cfg : TSIConfig) (input : MatchInput) :
    (processMatch cfg input).awayExpected = 1 - (processMatch cfg input).homeExpected := rfl

/-- Folding an accumulating sum over a list equals the initial value plus the
sum of the mapped list. -/
theorem foldl_add_eq_sum {α : Type} (f : α → ℝ) (l : List α) (a : ℝ) :
    l.foldl (fun acc x => acc + f x) a = a + (l.map f).sum := by
  induction l generalizing a with
  | nil => simp
  | cons x xs ih => simp [ih, add_assoc]

/-- One plus a real exponential is positive. -/
theorem one_add_exp_pos (x : ℝ) : (0 : ℝ) < 1 + Real.exp x := by positivity

/-- The sigmoid is positive. -/
theorem sigmoid_pos (x : ℝ) : 0 < sigmoid x := by
  unfold sigmoid
  positivity

/-- The sigmoid is below one. -/
theorem sigmoid_lt_one (x : ℝ) : sigmoid x < 1 := by
  unfold sigmoid
  rw [div_lt_one (one_add_exp_pos (-x))]
  nlinarith [Real.exp_pos (-x)]

/-- The sigmoid is strictly monotone. -/
theorem sigmoid_strict_mono {a b : ℝ} (h : a < b) : sigmoid a < sigmoid b := by
  unfold sigmoid
  have hb : (0 : ℝ) < 1 + Real.exp (-b) := one_add_exp_pos _
  have hlt : 1 + Real.exp (-b) < 1 + Real.exp (-a) := by
    have := Real.exp_lt_exp.mpr (neg_lt_neg h)
    linarith
  exact one_div_lt_one_div_of_lt hb hlt

/-- The logit inverts the sigmoid. -/
theorem sigmoid_logit (t : ℝ) : Real.log (sigmoid t / (1 - sigmoid t)) = t := by
  have hD : (0 : ℝ) < 1 + Real.exp (-t) := one_add_exp_pos _
  have hE : Real.exp t ≠ 0 := (Real.exp_pos t).ne'
  have h1 : 1 - sigmoid t = Real.exp (-t) / (1 + Real.exp (-t)) := by
    unfold sigmoid
    field_simp
  have h2 : sigmoid t / (1 - sigmoid t) = Real.exp t := by
    rw [h1]
    unfold sigmoid
    rw [Real.exp_neg] at hD ⊢
    field_simp
  rw [h2, Real.log_exp]

/-! Claim theorems. -/

/-- C3: for every raw rating x, toRaw (toDisplay x) = x, assuming the display
interval is nondegenerate and the mapping scale s is positive. -/
theorem toRaw_toDisplay_roundtrip (cfg : TSIConfig) (x : ℝ)
    (hs : 0 < cfg.Mapping.s)
    (hd : cfg.Mapping.display_min < cfg.Mapping.display_max) :
    toRaw cfg (toDisplay cfg x) = x := by
  have hdd : cfg.Mapping.display_max - cfg.Mapping.display_min ≠ 0 :=
    sub_ne_zero.mpr hd.ne'
  simp only [toRaw, toDisplay]
  have hA : (cfg.Mapping.display_min +
        (cfg.Mapping.display_max - cfg.Mapping.display_min) *
          sigmoid ((x - cfg.Mapping.mu) / cfg.Mapping.s) -
        cfg.Mapping.display_min) /
      (cfg.Mapping.display_max - cfg.Mapping.display_min) =
      sigmoid ((x - cfg.Mapping.mu) / cfg.Mapping.s) := by
    field_simp
  rw [hA, sigmoid_logit]
  field_simp

/-- C4: assuming display_min < display_max and scale s > 0, every toDisplay
value lies strictly inside the open display interval, and toDisplay is
strictly monotonically increasing. -/
theorem toDisplay_bounds_mono (cfg : TSIConfig)
    (hs : 0 < cfg.Mapping.s)
    (hd : cfg.Mapping.display_min < cfg.Mapping.display_max) :
    (∀ raw : ℝ, cfg.Mapping.display_min < toDisplay cfg raw ∧
        toDisplay cfg raw < cfg.Mapping.display_max) ∧
      ∀ raw1 raw2 : ℝ, raw1 < raw2 → toDisplay cfg raw1 < toDisplay cfg raw2 := by
  have hdd : 0 < cfg.Mapping.display_max - cfg.Mapping.display_min := sub_pos.mpr hd
  constructor
  · intro raw
    have h0 := sigmoid_pos ((raw - cfg.Mapping.mu) / cfg.Mapping.s)
    have h1 := sigmoid_lt_one ((raw - cfg.Mapping.mu) / cfg.Mapping.s)
    unfold toDisplay
    constructor
    · nlinarith
    · nlinarith
  · intro r1 r2 h
    have hmono : sigmoid ((r1 - cfg.Mapping.mu) / cfg.Mapping.s) <
        sigmoid ((r2 - cfg.Mapping.mu) / cfg.Mapping.s) := by
      exact sigmoid_strict_mono ((div_lt_div_iff_of_pos_right hs).mpr (by linarith))
    unfold toDisplay
    exact add_lt_add_left (mul_lt_mul_of_pos_left hmono hdd) _

/-- C1: computeTSI returns tsiRaw equal to baseElo plus the four adjustments,
each adjustment being the corresponding calculator applied to the input's
slice and currentDate; tsiDisplay equals toDisplay of tsiRaw; and every field
of the components breakdown equals the corresponding intermediate value. -/
theorem computeTSI_components_spec (cfg : TSIConfig) (input : TeamState) :
    (computeTSI cfg input).tsiRaw =
        input.baseElo + calculateInjuryAdjustment cfg input.injuries +
          calculateTransferAdjustment cfg input.transfers input.currentDate +
          calculateManagerAdjustment cfg input.managerChange input.currentDate +
          calculateFatigueAdjustment cfg input.restDays input.matchesIn14Days ∧
      (computeTSI cfg input).tsiDisplay = toDisplay cfg (computeTSI cfg input).tsiRaw ∧
      (computeTSI cfg input).components.baseElo = input.baseElo ∧
      (computeTSI cfg input).components.injuryAdj =
        calculateInjuryAdjustment cfg input.injuries ∧
      (computeTSI cfg input).components.transferAdj =
        calculateTransferAdjustment cfg input.transfers input.currentDate ∧
      (computeTSI cfg input).components.managerAdj =
        calculateManagerAdjustment cfg input.managerChange input.currentDate ∧
      (computeTSI cfg input).components.fatigueAdj =
        calculateFatigueAdjustment cfg input.restDays input.matchesIn14Days ∧
      (computeTSI cfg input).components.totalRaw = (computeTSI cfg input).tsiRaw ∧
      (computeTSI cfg input).components.displayScore = (computeTSI cfg input).tsiDisplay :=
  ⟨rfl, rfl, rfl, rfl, rfl, rfl, rfl, rfl, rfl⟩

/-- C2: for every MatchInput, processMatch satisfies
homeDelta + awayDelta = 0 exactly and homeExpected + awayExpected = 1 exactly. -/
theorem processMatch_zero_sum (cfg : TSIConfig) (input : MatchInput) :
    (processMatch cfg input).homeDelta + (processMatch cfg input).awayDelta = 0 ∧
      (processMatch cfg input).homeExpected + (processMatch cfg input).awayExpected = 1 := by
  refine ⟨?_, ?_⟩
  · rw [processMatch_awayDelta]; ring
  · rw [processMatch_awayExpected]; ring

/-- C5 (amended): calculateFatigueAdjustment returns
-phi * max(0, 4 - restDays) - psi * max(0, matchesIn14Days - 4): the matches
term penalises matches in excess of the threshold 4, not matches below it. -/
theorem calculateFatigueAdjustment_formula (cfg : TSIConfig)
    (restDays matchesIn14Days : ℝ) :
    calculateFatigueAdjustment cfg restDays matchesIn14Days =
      -cfg.T1.fatigue.phi * max 0 (4 - restDays) -
        cfg.T1.fatigue.psi * max 0 (matchesIn14Days - 4) := rfl

/-- C5 (counterexample): with phi = 2, psi = 3, restDays = 4 and
matchesIn14Days = 0, the code returns 0, while the claimed formula
-phi * max(0, 4 - restDays) - psi * max(0, 4 - matchesIn14Days)
would give -12. -/
theorem calculateFatigueAdjustment_claim_false :
    ¬ (calculateFatigueAdjustment exampleConfig 4 0 =
        -exampleConfig.T1.fatigue.phi * max 0 (4 - 4) -
          exampleConfig.T1.fatigue.psi * max 0 ((4 : ℝ) - 0)) := by
  have h1 : max (0 : ℝ) (4 - 4) = 0 := by norm_num
  have h2 : max (0 : ℝ) (0 - 4) = 0 := by
    rw [max_eq_left]; norm_num
  have h3 : max (0 : ℝ) ((4 : ℝ) - 0) = 4 - 0 := max_eq_right (by norm_num)
  simp only [calculateFatigueAdjustment, exampleConfig, h1, h2, h3]
  norm_num

/-- C7: calculateInjuryAdjustment returns -beta times the sum over records of
impact * statusWeight * positionWeight * durationWeight, where impact is the
record's playerImpact when supplied and otherwise
0.6 * min(minutesPlayed/900, 1) + 0.4 * valueTierScore, with minutesPlayed
defaulting to 0 and valueTier defaulting to the missing tier. -/
theorem calculateInjuryAdjustment_formula (cfg : TSIConfig)
    (injuries : List PlayerInjury) :
    calculateInjuryAdjustment cfg injuries =
      -cfg.T1.injuries.beta *
        (injuries.map (fun injury =>
          (match injury.playerImpact with
            | some v => v
            | none =>
              0.6 * min (injury.minutesPlayed.getD 0 / 900) 1 +
                0.4 * VALUE_TIER_SCORES (injury.valueTier.getD .missing)) *
            cfg.T1.injuries.status_u injury.status *
            cfg.T1.injuries.position_r injury.position *
            cfg.T1.injuries.duration_d injury.durationCategory)).sum := by
  unfold calculateInjuryAdjustment
  by_cases h : injuries.length = 0
  · rw [if_pos h, List.length_eq_zero.mp h]
    simp
  · rw [if_neg h]
    simp only [foldl_add_eq_sum, zero_add, calculatePlayerImpact]

/-- C6: for a fixed rating pair, competition and venue flag, two home-win
score lines whose goal differences both reach the margin cap produce exactly
the same homeDelta. -/
theorem processMatch_margin_cap_idempotent (cfg : TSIConfig)
    (homeRating awayRating : ℝ) (comp : CompetitionType) (neutral : Bool)
    {g1 g1' g2 g2' : ℤ} (hw1 : g1' < g1) (hw2 : g2' < g2)
    (h1 : cfg.T0.margin.cap_goals ≤ (g1 : ℝ) - (g1' : ℝ))
    (h2 : cfg.T0.margin.cap_goals ≤ (g2 : ℝ) - (g2' : ℝ)) :
    (processMatch cfg ⟨homeRating, awayRating, g1, g1', comp, neutral⟩).homeDelta =
      (processMatch cfg ⟨homeRating, awayRating, g2, g2', comp, neutral⟩).homeDelta := by
  have hS : actualScore g1 g1' = actualScore g2 g2' := by
    unfold actualScore
    rw [if_pos hw1, if_pos hw2]
  have hmb : marginBonus cfg g1 g1' = marginBonus cfg g2 g2' := by
    unfold marginBonus
    rw [min_eq_left h1, min_eq_left h2]
  simp only [processMatch_homeDelta, hS, hmb]

/-- C8 helper: the transfer ramp of a future-dated event is exactly 0 for a
positive time constant. -/
theorem transferRamp_future (currentDate effectiveDate : Date) {tau : ℝ}
    (htau : 0 < tau) (h : currentDate < effectiveDate) :
    transferRamp currentDate effectiveDate tau = 0 := by
  have hms : (0 : ℝ) < 1000 * 60 * 60 * 24 := by norm_num
  have hx : (currentDate - effectiveDate) / (1000 * 60 * 60 * 24) / tau < 0 :=
    div_neg_of_neg_of_pos (div_neg_of_neg_of_pos (by linarith) hms) htau
  simp only [transferRamp]
  rw [min_eq_right (hx.le.trans zero_le_one)]
  exact max_eq_left hx.le

/-- C8 helper: the transfer ramp saturates at exactly 1 once the elapsed days
reach the time constant. -/
theorem transferRamp_saturated (currentDate effectiveDate : Date) {tau : ℝ}
    (htau : 0 < tau)
    (h : tau ≤ (currentDate - effectiveDate) / (1000 * 60 * 60 * 24)) :
    transferRamp currentDate effectiveDate tau = 1 := by
  have hx : (1 : ℝ) ≤ (currentDate - effectiveDate) / (1000 * 60 * 60 * 24) / tau :=
    (one_le_div htau).mpr h
  simp only [transferRamp]
  rw [min_eq_left hx]
  exact max_eq_right zero_le_one

/-- C8: calculateTransferAdjustment sums gamma * playerImpact * ramp over the
events, signed by direction; a future-dated event has ramp exactly 0 and a
fully elapsed event has ramp exactly 1 (time constants assumed positive). -/
theorem calculateTransferAdjustment_formula (cfg : TSIConfig)
    (transfers : List Transfer) (currentDate : Date)
    (hp : 0 < cfg.T1.transfers.tau_days .permanent)
    (hl : 0 < cfg.T1.transfers.tau_days .loan) :
    calculateTransferAdjustment cfg transfers currentDate =
        (transfers.map (fun t =>
          (if t.direction = .inDir then (1 : ℝ) else -1) *
            (cfg.T1.transfers.gamma * t.playerImpact *
              max 0 (min 1
                (((currentDate - t.effectiveDate) / (1000 * 60 * 60 * 24)) /
                  cfg.T1.transfers.tau_days t.type))))).sum ∧
      (∀ t ∈ transfers, currentDate < t.effectiveDate →
        transferRamp currentDate t.effectiveDate (cfg.T1.transfers.tau_days t.type) = 0) ∧
      (∀ t ∈ transfers,
        cfg.T1.transfers.tau_days t.type ≤
            (currentDate - t.effectiveDate) / (1000 * 60 * 60 * 24) →
        transferRamp currentDate t.effectiveDate (cfg.T1.transfers.tau_days t.type) = 1) := by
  have htau : ∀ t : Transfer, 0 < cfg.T1.transfers.tau_days t.type := by
    intro t
    cases ht : t.type
    · rw [ht] at *
      exact hp
    · rw [ht] at *
      exact hl
  refine ⟨?_, fun t _ hfut => transferRamp_future _ _ (htau t) hfut,
    fun t _ hsat => transferRamp_saturated _ _ (htau t) hsat⟩
  unfold calculateTransferAdjustment
  by_cases h : transfers.length = 0
  · rw [if_pos h, List.length_eq_zero.mp h]
    simp
  · rw [if_neg h]
    have hfun : (fun (adjustment : ℝ) (transfer : Transfer) =>
        if transfer.direction = TransferDirection.inDir then
          adjustment + cfg.T1.transfers.gamma * transfer.playerImpact *
            transferRamp currentDate transfer.effectiveDate
              (cfg.T1.transfers.tau_days transfer.type)
        else
          adjustment - cfg.T1.transfers.gamma * transfer.playerImpact *
            transferRamp currentDate transfer.effectiveDate
              (cfg.T1.transfers.tau_days transfer.type)) =
        fun adjustment transfer => adjustment +
          (if transfer.direction = TransferDirection.inDir then (1 : ℝ) else -1) *
            (cfg.T1.transfers.gamma * transfer.playerImpact *
              transferRamp currentDate transfer.effectiveDate
                (cfg.T1.transfers.tau_days transfer.type)) := by
      funext a t
      by_cases hdir : t.direction = TransferDirection.inDir
      · rw [if_pos hdir, if_pos hdir]
        ring
      · rw [if_neg hdir, if_neg hdir]
        ring
    show (transfers.foldl (fun adjustment transfer =>
        if transfer.direction = TransferDirection.inDir then
          adjustment + cfg.T1.transfers.gamma * transfer.playerImpact *
            transferRamp currentDate transfer.effectiveDate
              (cfg.T1.transfers.tau_days transfer.type)
        else
          adjustment - cfg.T1.transfers.gamma * transfer.playerImpact *
            transferRamp currentDate transfer.effectiveDate
              (cfg.T1.transfers.tau_days transfer.type)) 0) = _
    rw [hfun, foldl_add_eq_sum]
    simp only [zero_add, transferRamp]

/-- C10 helper: calculateManagerAdjustment on a present event, unfolded. -/
theorem calculateManagerAdjustment_some (cfg : TSIConfig) (mc : ManagerChange)
    (d : Date) :
    calculateManagerAdjustment cfg (some mc) d =
      cfg.T1.manager.tier_delta mc.tier *
        Real.exp (-((d - mc.changeDate) / (1000 * 60 * 60 * 24)) /
          cfg.T1.manager.lambda_days) := rfl

/-- C10: for a future-dated manager change, the adjustment is
tier_delta * e^((changeDate - currentDate in days) / lambda_days); for a
positive lambda_days and nonzero tier_delta its magnitude strictly exceeds
the tier delta's, and it grows without bound as the change date recedes into
the future. -/
theorem calculateManagerAdjustment_future_unbounded (cfg : TSIConfig)
    (mc : ManagerChange) (currentDate : Date)
    (hlam : 0 < cfg.T1.manager.lambda_days)
    (hf : currentDate < mc.changeDate)
    (hdelta : cfg.T1.manager.tier_delta mc.tier ≠ 0) :
    calculateManagerAdjustment cfg (some mc) currentDate =
        cfg.T1.manager.tier_delta mc.tier *
          Real.exp (((mc.changeDate - currentDate) / (1000 * 60 * 60 * 24)) /
            cfg.T1.manager.lambda_days) ∧
      |cfg.T1.manager.tier_delta mc.tier| <
        |calculateManagerAdjustment cfg (some mc) currentDate| ∧
      ∀ M : ℝ, ∃ futureDate : Date, currentDate < futureDate ∧
        M < |calculateManagerAdjustment cfg
          (some ⟨mc.tier, futureDate⟩) currentDate| := by
  have hms : (0 : ℝ) < 1000 * 60 * 60 * 24 := by norm_num
  have hexparg : -((currentDate - mc.changeDate) / (1000 * 60 * 60 * 24)) /
      cfg.T1.manager.lambda_days =
      ((mc.changeDate - currentDate) / (1000 * 60 * 60 * 24)) /
        cfg.T1.manager.lambda_days := by
    ring
  have hApos : 0 < |cfg.T1.manager.tier_delta mc.tier| := abs_pos.mpr hdelta
  refine ⟨by rw [calculateManagerAdjustment_some, hexparg], ?_, ?_⟩
  · rw [calculateManagerAdjustment_some, hexparg]
    have hu : 0 < ((mc.changeDate - currentDate) / (1000 * 60 * 60 * 24)) /
        cfg.T1.manager.lambda_days :=
      div_pos (div_pos (by linarith) hms) hlam
    have hexp : 1 < Real.exp (((mc.changeDate - currentDate) /
        (1000 * 60 * 60 * 24)) / cfg.T1.manager.lambda_days) := by
      rw [show (1 : ℝ) = Real.exp 0 from (Real.exp_zero).symm]
      exact Real.exp_lt_exp.mpr hu
    rw [abs_mul, abs_of_pos (Real.exp_pos _)]
    exact lt_mul_of_one_lt_right hApos hexp
  · intro M
    set A := |cfg.T1.manager.tier_delta mc.tier| with hA
    set t := max 1 ((|M| + 1) / A) with ht
    have ht1 : (1 : ℝ) ≤ t := le_max_left _ _
    have ht0 : (0 : ℝ) < t := lt_of_lt_of_le one_pos ht1
    refine ⟨currentDate +
      (1000 * 60 * 60 * 24) * (cfg.T1.manager.lambda_days * t), ?_, ?_⟩
    · have hpos : 0 < (1000 * 60 * 60 * 24 : ℝ) *
          (cfg.T1.manager.lambda_days * t) := by positivity
      linarith
    · simp only [calculateManagerAdjustment_some]
      have harg : -((currentDate - (currentDate +
            (1000 * 60 * 60 * 24) * (cfg.T1.manager.lambda_days * t))) /
            (1000 * 60 * 60 * 24)) / cfg.T1.manager.lambda_days = t := by
        field_simp
      rw [harg, abs_mul, abs_of_pos (Real.exp_pos t)]
      have hexp : t < Real.exp t := by
        have := Real.add_one_le_exp t
        linarith
      have hMt : |M| + 1 ≤ A * t := by
        have h2 : (|M| + 1) / A ≤ t := le_max_right _ _
        calc |M| + 1 = A * ((|M| + 1) / A) := by field_simp
          _ ≤ A * t := mul_le_mul_of_nonneg_left h2 hApos.le
      have hAt : A * t < A * Real.exp t := mul_lt_mul_of_pos_left hexp hApos
      have hM : M ≤ |M| := le_abs_self M
      linarith

/-- C9: each calculator maps its neutral input to exactly 0:
the empty injury list, the empty transfer list with any date, and the null
manager change with any date. -/
theorem adjustments_neutral (cfg : TSIConfig) (d : Date) :
    calculateInjuryAdjustment cfg [] = 0 ∧
      calculateTransferAdjustment cfg [] d = 0 ∧
      calculateManagerAdjustment cfg none d = 0 :=
  ⟨rfl, rfl, rfl⟩

/-! Witnesses: the hypothesis-bearing claim theorems, instantiated at
concrete inputs over the example parameter set. -/

/-- C3 witness: round trip at raw rating 1500 under the example mapping. -/
theorem toRaw_toDisplay_roundtrip_witness :
    0 < exampleConfig.Mapping.s ∧
      exampleConfig.Mapping.display_min < exampleConfig.Mapping.display_max ∧
      toRaw exampleConfig (toDisplay exampleConfig 1500) = 1500 :=
  ⟨by norm_num [exampleConfig], by norm_num [exampleConfig],
    toRaw_toDisplay_roundtrip exampleConfig 1500 (by norm_num [exampleConfig])
      (by norm_num [exampleConfig])⟩

/-- C4 witness: bounds at raw 1500 and strict growth from 1500 to 1600. -/
theorem toDisplay_bounds_mono_witness :
    (exampleConfig.Mapping.display_min < toDisplay exampleConfig 1500 ∧
        toDisplay exampleConfig 1500 < exampleConfig.Mapping.display_max) ∧
      toDisplay exampleConfig 1500 < toDisplay exampleConfig 1600 :=
  ⟨(toDisplay_bounds_mono exampleConfig (by norm_num [exampleConfig])
      (by norm_num [exampleConfig])).1 1500,
    (toDisplay_bounds_mono exampleConfig (by norm_num [exampleConfig])
      (by norm_num [exampleConfig])).2 1500 1600 (by norm_num)⟩

/-- C6 witness: a 3-0 and a 5-0 home win produce the same homeDelta under the
example margin cap of 2 goals. -/
theorem processMatch_margin_cap_idempotent_witness :
    (processMatch exampleConfig ⟨1500, 1500, 3, 0, .league, false⟩).homeDelta =
      (processMatch exampleConfig ⟨1500, 1500, 5, 0, .league, false⟩).homeDelta :=
  processMatch_margin_cap_idempotent exampleConfig 1500 1500 .league false
    (by norm_num) (by norm_num) (by norm_num [exampleConfig])
    (by norm_num [exampleConfig])

/-- C8 witness: a permanent transfer effective at epoch 0, observed 45 days
later, has ramp exactly 1 under the example 30-day time constant. -/
theorem calculateTransferAdjustment_formula_witness :
    transferRamp (86400000 * 45) 0
      (exampleConfig.T1.transfers.tau_days TransferType.permanent) = 1 :=
  (calculateTransferAdjustment_formula exampleConfig
      [⟨"p1", 0.8, .inDir, .permanent, 0⟩] (86400000 * 45)
      (by norm_num [exampleConfig]) (by norm_num [exampleConfig])).2.2
    ⟨"p1", 0.8, .inDir, .permanent, 0⟩ (by simp)
    (by norm_num [exampleConfig])

/-- C10 witness: an elite manager change dated one day in the future yields
an adjustment whose magnitude strictly exceeds the tier delta of 20. -/
theorem calculateManagerAdjustment_future_unbounded_witness :
    |exampleConfig.T1.manager.tier_delta ManagerTier.elite| <
      |calculateManagerAdjustment exampleConfig
        (some ⟨ManagerTier.elite, 86400000⟩) 0| :=
  (calculateManagerAdjustment_future_unbounded exampleConfig
      ⟨ManagerTier.elite, 86400000⟩ 0 (by norm_num [exampleConfig])
      (by norm_num) (by norm_num [exampleConfig])).2.1

end TSI
